import Mathlib

/-!
Verification of the link-shortener core (AWS CDK link shortener example).

Shallow embedding of the TypeScript sources:
* `lambda/shared/rate-limiter.ts` — atomic fixed-window rate limiter,
* `lambda/create/index.ts` — link creation (validation, dedup, code generation),
* `lambda/shared/validation.ts` — shared zod schemas (reserved-word denylist),
* `lambda/redirect/index.ts` — short-code resolution,
* `lambda/analytics/index.ts` — click-event pagination and aggregation.

External collaborators (DynamoDB, crypto hashes, `new URL`, the nanoid random
source) are modelled as explicit parameters: store calls become `Except`-valued
inputs, random sources become `Nat → Nat` index streams, hash/hostname
extraction become abstract `String → String` functions.  JavaScript number
arithmetic on the small integer quantities involved here (counts, percentages,
timestamps) is exact, so it is modelled with `Nat`; `Math.round` of a ratio of
naturals is modelled as exact rational rounding (half away from zero).
-/

namespace LinkShortener

/-! ## Rate limiter (`lambda/shared/rate-limiter.ts`) -/

/-- One entry of the `RATE_LIMITS` configuration table. -/
structure RateLimitConfig where
  requests : Nat
  window : Nat
deriving DecidableEq, Repr

inductive Role | free | premium | admin
deriving DecidableEq, Repr

inductive Action | create | redirect | analytics
deriving DecidableEq, Repr

/-- The static `RATE_LIMITS` table from `rate-limiter.ts`. -/
def RATE_LIMITS : Role → Action → RateLimitConfig
  | .free, .create => ⟨10, 3600⟩
  | .free, .redirect => ⟨1000, 3600⟩
  | .free, .analytics => ⟨50, 3600⟩
  | .premium, .create => ⟨100, 3600⟩
  | .premium, .redirect => ⟨10000, 3600⟩
  | .premium, .analytics => ⟨500, 3600⟩
  | .admin, .create => ⟨1000, 3600⟩
  | .admin, .redirect => ⟨100000, 3600⟩
  | .admin, .analytics => ⟨5000, 3600⟩

structure RateLimitResult where
  allowed : Bool
  remaining : Nat
  resetTime : Nat
  retryAfter : Option Nat
deriving DecidableEq, Repr

/-- `RateLimiter.checkRateLimit` acting on the counter stored under the
partition key `{identifier}:{action}:{windowStart}`.  The store's atomic
`ADD #count :increment` is the state update; the returned `ALL_NEW` value
(`requestCount` after the add) is `currentCount`.  `Math.max(0, …)` is `Nat`
truncated subtraction.  Returns the HTTP-visible result and the new counter. -/
def checkRateLimit (cfg : RateLimitConfig) (now requestCount increment : Nat) :
    RateLimitResult × Nat :=
  let windowStart := now - now % cfg.window
  let windowEnd := windowStart + cfg.window
  let currentCount := requestCount + increment
  let allowed := currentCount ≤ cfg.requests
  ({ allowed := allowed
     remaining := cfg.requests - currentCount
     resetTime := windowEnd
     retryAfter := if allowed then none else some (windowEnd - now) },
   currentCount)

/-- Counter value of a fresh window after `k` sequential `checkRateLimit`
calls with increment 1 (every caller contends on the same key, and each call
durably applies its atomic add). -/
def counterAfter (cfg : RateLimitConfig) (now : Nat) : Nat → Nat
  | 0 => 0
  | k + 1 => (checkRateLimit cfg now (counterAfter cfg now k) 1).2

theorem counterAfter_eq (cfg : RateLimitConfig) (now k : Nat) :
    counterAfter cfg now k = k := by
  induction k with
  | zero => rfl
  | succ k ih => simp [counterAfter, checkRateLimit, ih]

/-- Claim C1: on a fresh rate-limit window with quota `N` for the caller's
(role, action) pair, each of the first `N` `checkRateLimit` calls (the call of
0-based index `i < N`) returns `allowed = true`, and the `(N+1)`-th call (index
`N`) returns `allowed = false`: the counter is incremented first and the
post-increment value is compared against the quota, so the request that crosses
the threshold is itself counted and rejected. -/
theorem rateLimit_rejects_only_crossing_call (role : Role) (action : Action)
    (now i : Nat) (hi : i < (RATE_LIMITS role action).requests) :
    (checkRateLimit (RATE_LIMITS role action) now
        (counterAfter (RATE_LIMITS role action) now i) 1).1.allowed = true ∧
    (checkRateLimit (RATE_LIMITS role action) now
        (counterAfter (RATE_LIMITS role action) now
          (RATE_LIMITS role action).requests) 1).1.allowed = false := by
  constructor
  · simp [checkRateLimit, counterAfter_eq]
    omega
  · simp [checkRateLimit, counterAfter_eq]

theorem rateLimit_rejects_only_crossing_call_witness :
    0 < (RATE_LIMITS .free .create).requests ∧
    ((checkRateLimit (RATE_LIMITS .free .create) 0
        (counterAfter (RATE_LIMITS .free .create) 0 0) 1).1.allowed = true ∧
     (checkRateLimit (RATE_LIMITS .free .create) 0
        (counterAfter (RATE_LIMITS .free .create) 0
          (RATE_LIMITS .free .create).requests) 1).1.allowed = false) :=
  ⟨by decide, rateLimit_rejects_only_crossing_call .free .create 0 0 (by decide)⟩

/-! ## Link data model and store interface -/

structure LinkItem where
  shortCode : String
  originalUrl : String
  originalUrlHash : String
  createdAt : Nat
  expiresAt : Option Nat := none
  userId : Option String := none
  clickCount : Nat := 0
  isCustom : Bool := false
deriving DecidableEq, Repr

inductive StoreErr | timeout | internal
deriving DecidableEq, Repr

/-- Failure modes of the conditional `PutItem`: the
`attribute_not_exists(shortCode)` condition failed
(`ConditionalCheckFailedException`), or any other store failure. -/
inductive PutErr | condFailed | store
deriving DecidableEq, Repr

/-- JavaScript truthiness of the optional numeric field `expiresAt`
(`undefined` and `0` are falsy). -/
def expiresTruthy : Option Nat → Bool
  | none => false
  | some v => v != 0

/-- One-call snapshot of the DynamoDB operations the create handler performs
(`lambda/create/index.ts`).  Each operation may fail with a store error;
`putIfAbsent` may additionally fail its `attribute_not_exists(shortCode)`
condition. -/
structure StoreOps where
  queryByHash : String → Except StoreErr (List LinkItem)
  getCodeExists : String → Except StoreErr Bool
  putIfAbsent : LinkItem → Except PutErr Unit

/-! ## Validation (`lambda/create/index.ts` and `lambda/shared/validation.ts`) -/

/-- JavaScript `String.prototype.toLowerCase` on the ASCII strings involved
here, modelled characterwise. -/
def jsToLower (s : String) : String := String.mk (s.toList.map Char.toLower)

/-- JavaScript / zod `String.prototype.startsWith`, modelled on the character
sequence. -/
def jsStartsWith (s p : String) : Bool := p.toList.isPrefixOf s.toList

/-- Character class of the regex `/^[a-zA-Z0-9-_]{3,20}$/`. -/
def isCodeChar (c : Char) : Bool := c.isAlphanum || c == '-' || c == '_'

/-- The regex `/^[a-zA-Z0-9-_]{3,20}$/` shared by both schemas. -/
def codePatternOk (s : String) : Bool :=
  decide (3 ≤ s.length) && decide (s.length ≤ 20) && s.toList.all isCodeChar

/-- The `customCode` check of the inline `CreateLinkSchema` in
`lambda/create/index.ts` (lines 30–32): the alphabet/length regex only. -/
def createCustomCodeValid (s : String) : Bool := codePatternOk s

/-- The reserved-word denylist of `ShortCodeSchema` in
`lambda/shared/validation.ts`. -/
def reservedWords : List String :=
  ["api", "www", "admin", "root", "help", "support", "contact",
   "about", "terms", "privacy", "login", "signup", "auth",
   "health", "status", "metrics", "analytics", "dashboard",
   "docs", "documentation", "blog", "news", "static", "assets",
   "public", "private", "test", "staging", "dev", "prod",
   "null", "undefined", "true", "false", "delete", "remove"]

/-- `ShortCodeSchema` of `lambda/shared/validation.ts`: the regex plus the
case-insensitive reserved-word denylist. -/
def shortCodeSchemaValid (s : String) : Bool :=
  codePatternOk s && !(reservedWords.contains (jsToLower s))

/-- The `url` checks of the inline `CreateLinkSchema`
(`lambda/create/index.ts` lines 23–29).  `zodUrlOk` abstracts zod's builtin
`.url()` parser, an external library predicate; the length bounds and the
scheme check are translated from the source. -/
def urlSchemaOk (zodUrlOk : String → Bool) (u : String) : Bool :=
  zodUrlOk u && decide (10 ≤ u.length) && decide (u.length ≤ 2048) &&
    (jsStartsWith u "http://" || jsStartsWith u "https://")

/-- The `expiresIn` bounds of `CreateLinkSchema` (optional, 3600…31536000). -/
def expiresInOk : Option Nat → Bool
  | none => true
  | some e => decide (3600 ≤ e) && decide (e ≤ 31536000)

/-- The `customCode` field check of the inline `CreateLinkSchema` (optional). -/
def customCodeFieldOk : Option String → Bool
  | none => true
  | some c => createCustomCodeValid c

/-! ## Create handler (`lambda/create/index.ts`) -/

/-- `findExistingLink` (lines 170–196): queries the `OriginalUrlIndex` with
`Limit: 1`; a match whose `expiresAt` is absent (or falsy) or in the future is
returned; store errors are caught (`console.warn`) and `null` is returned. -/
def findExistingLink (ops : StoreOps) (urlHash : String) (now : Nat) : Option LinkItem :=
  match ops.queryByHash urlHash with
  | .error _ => none
  | .ok items =>
    match items.head? with
    | none => none
    | some item =>
      if !expiresTruthy item.expiresAt || decide (item.expiresAt.getD 0 > now) then
        some item
      else none

/-- `checkShortCodeExists` (lines 198–211): a `GetItem` on the code; store
errors are caught and reported as `true` ("err on the side of caution"). -/
def checkShortCodeExists (res : Except StoreErr Bool) : Bool :=
  match res with
  | .error _ => true
  | .ok b => b

inductive GenError | exhausted
deriving DecidableEq, Repr

/-- Loop body of `generateUniqueShortCode`: `attempt` is the 0-based attempt
index, `fuel` the remaining attempts out of `maxAttempts`. -/
def generateUniqueShortCodeGo (gen : Nat → String) (ops : StoreOps) :
    Nat → Nat → Except GenError String
  | _, 0 => .error .exhausted
  | attempt, fuel + 1 =>
    let shortCode := gen attempt
    if checkShortCodeExists (ops.getCodeExists shortCode) then
      generateUniqueShortCodeGo gen ops (attempt + 1) fuel
    else
      .ok shortCode

/-- `generateUniqueShortCode` (lines 213–227): up to `maxAttempts = 5`
generation attempts; each collision is detected by the existence read
(`checkShortCodeExists`); throws (modelled as `Except.error`) when all
attempts collide.  `gen i` is the nanoid code drawn at attempt `i`. -/
def generateUniqueShortCode (gen : Nat → String) (ops : StoreOps)
    (maxAttempts : Nat) : Except GenError String :=
  generateUniqueShortCodeGo gen ops 0 maxAttempts

inductive CreateOutcome where
  | badRequest (msg : String)
  | conflict (msg : String)
  | serverError
  | success (shortCode : String) (created : Bool) (originalUrl : String)
deriving DecidableEq, Repr

/-- The create `handler` (lines 56–168): schema validation, duplicate-URL
lookup, code choice (custom code availability probe, or generation with retry),
then the conditional write.  The thrown exhausted-attempts `Error` and
non-conditional store failures both reach the catch-all and become 500
(`serverError`); `ConditionalCheckFailedException` becomes a 409 conflict.
Returns the HTTP outcome together with the link item durably written
(`none` when no write happened). -/
def createHandler (zodUrlOk : String → Bool) (hash : String → String)
    (gen : Nat → String) (ops : StoreOps)
    (url : String) (customCode : Option String) (expiresIn : Option Nat)
    (userId : Option String) (now : Nat) : CreateOutcome × Option LinkItem :=
  if !urlSchemaOk zodUrlOk url then (.badRequest "Invalid URL format", none)
  else if !customCodeFieldOk customCode then (.badRequest "Invalid custom code", none)
  else if !expiresInOk expiresIn then (.badRequest "Invalid expiration", none)
  else
    let urlHash := hash url
    match findExistingLink ops urlHash now with
    | some existing => (.success existing.shortCode false existing.originalUrl, none)
    | none =>
      let chosen : Except CreateOutcome (String × Bool) :=
        match customCode with
        | some c =>
          if checkShortCodeExists (ops.getCodeExists c) then
            .error (.conflict "Custom short code already exists")
          else .ok (c, true)
        | none =>
          match generateUniqueShortCode gen ops 5 with
          | .ok c => .ok (c, false)
          | .error _ => .error .serverError
      match chosen with
      | .error out => (out, none)
      | .ok (code, isCustom) =>
        let item : LinkItem :=
          { shortCode := code, originalUrl := url, originalUrlHash := urlHash,
            createdAt := now, expiresAt := expiresIn.map (fun e => now + e * 1000),
            userId := userId, clickCount := 0, isCustom := isCustom }
        match ops.putIfAbsent item with
        | .ok _ => (.success code true url, some item)
        | .error .condFailed => (.conflict "Short code already exists", none)
        | .error .store => (.serverError, none)

/-- The "store behaving normally" semantics for one create call: the index
query returns the (at most one, `Limit: 1`) item matching the URL hash, the
existence probe reports membership by `shortCode`, and the conditional put
succeeds exactly when the code is absent. -/
def normalStore (store : List LinkItem) : StoreOps where
  queryByHash := fun h => .ok ((store.filter (fun it => it.originalUrlHash == h)).take 1)
  getCodeExists := fun c => .ok (store.any (fun it => it.shortCode == c))
  putIfAbsent := fun item =>
    if store.any (fun it => it.shortCode == item.shortCode) then .error .condFailed
    else .ok ()

/-- A create call against the normal store: run the handler on the snapshot and
append the written item (if any). -/
def createWithStore (zodUrlOk : String → Bool) (hash : String → String)
    (gen : Nat → String) (store : List LinkItem)
    (url : String) (customCode : Option String) (expiresIn : Option Nat)
    (userId : Option String) (now : Nat) : CreateOutcome × List LinkItem :=
  let r := createHandler zodUrlOk hash gen (normalStore store) url customCode
    expiresIn userId now
  (r.1, store ++ r.2.toList)

/-! ## Redirect resolver (`lambda/redirect/index.ts`) -/

inductive EventType | SUCCESS | NOT_FOUND | EXPIRED
deriving DecidableEq, Repr

/-- Outcome of the redirect handler: 301 with a `Location` header, the 404
page, the 410 expired page, or the 500 catch-all. -/
inductive RedirectOutcome where
  | redirect (location : String)
  | notFound
  | expired
  | serverError
deriving DecidableEq, Repr

/-- The redirect `handler` (lines 42–155): `GetItem` on the short code, then
branch on absent / expired (`linkItem.expiresAt && Date.now() > expiresAt`,
with JavaScript truthiness on `expiresAt`) / active.  A store error in the
lookup reaches the catch-all and becomes 500, with no event recorded.  The
scheduled click-event write and counter increment are fire-and-forget and
cannot alter the returned outcome; the event type they record is returned
alongside. -/
def resolve (lookup : Except StoreErr (Option LinkItem)) (now : Nat) :
    RedirectOutcome × Option EventType :=
  match lookup with
  | .error _ => (.serverError, none)
  | .ok none => (.notFound, some .NOT_FOUND)
  | .ok (some item) =>
    if expiresTruthy item.expiresAt && decide (now > item.expiresAt.getD 0) then
      (.expired, some .EXPIRED)
    else
      (.redirect item.originalUrl, some .SUCCESS)

/-! ## Identifier generator (`lambda/create/index.ts` line 19) -/

/-- The `customAlphabet` argument: URL-safe characters avoiding the visually
ambiguous `0,1,I,O,l`. -/
def SHORT_CODE_ALPHABET : String :=
  "23456789ABCDEFGHJKLMNPQRSTUVWXYZabcdefghijkmnpqrstuvwxyz"

/-- `generateShortCode = customAlphabet(SHORT_CODE_ALPHABET, 8)`: nanoid draws
8 random in-range indices into the alphabet (its masked rejection sampling
never indexes outside; the abstract stream `rand` is reduced modulo the
alphabet size to express that).  Result given as the code's characters. -/
def generateShortCode (rand : Nat → Nat) : List Char :=
  (List.range 8).map (fun i =>
    SHORT_CODE_ALPHABET.toList.getD (rand i % SHORT_CODE_ALPHABET.toList.length) '2')

/-! ## Claims about creation, resolution and generation -/

/-- Claim C3 (code bug): the create handler's own `CreateLinkSchema`
(`lambda/create/index.ts` lines 22–38) checks `customCode` against the regex
only — unlike `ShortCodeSchema` in the shared `lambda/shared/validation.ts`,
it has no reserved-word refinement.  At the failing input
`customCode = "admin"` (reserved, case-insensitively, per the shared denylist)
with a fresh store, the handler does not fail with a `ValidationError`: it
returns `created = true` and durably writes a link item with short code
`"admin"`. -/
theorem reserved_custom_code_written_despite_denylist :
    reservedWords.contains (jsToLower "admin") = true ∧
    shortCodeSchemaValid "admin" = false ∧
    createCustomCodeValid "admin" = true ∧
    (createWithStore (fun _ => true) (fun s => s) (fun _ => "AbC12xyz") []
        "https://example.com" (some "admin") none none 0).1
      = .success "admin" true "https://example.com" ∧
    ((createWithStore (fun _ => true) (fun s => s) (fun _ => "AbC12xyz") []
        "https://example.com" (some "admin") none none 0).2.map LinkItem.shortCode)
      = ["admin"] := by
  decide

/-- Claim C6: a valid URL submitted twice without a custom code, against a
normally behaving store that starts empty, yields `created = true` on the
first call and `created = false` with the same short code on the second call —
the existing link is found by the URL-hash index lookup performed before code
generation. -/
theorem idempotent_create_returns_existing (zodUrlOk : String → Bool)
    (hash : String → String) (gen : Nat → String) (userId : Option String)
    (url : String) (now₁ now₂ : Nat)
    (hurl : urlSchemaOk zodUrlOk url = true) :
    ∃ code,
      (createWithStore zodUrlOk hash gen [] url none none userId now₁).1
        = .success code true url ∧
      (createWithStore zodUrlOk hash gen
          (createWithStore zodUrlOk hash gen [] url none none userId now₁).2
          url none none userId now₂).1
        = .success code false url := by
  refine ⟨gen 0, ?_, ?_⟩ <;>
    simp [createWithStore, createHandler, normalStore, findExistingLink,
      generateUniqueShortCode, generateUniqueShortCodeGo, checkShortCodeExists,
      expiresTruthy, expiresInOk, customCodeFieldOk, hurl]

theorem idempotent_create_returns_existing_witness :
    urlSchemaOk (fun _ => true) "https://example.com" = true ∧
    ∃ code,
      (createWithStore (fun _ => true) (fun s => s) (fun _ => "AbC12xyz") []
          "https://example.com" none none none 0).1
        = .success code true "https://example.com" ∧
      (createWithStore (fun _ => true) (fun s => s) (fun _ => "AbC12xyz")
          (createWithStore (fun _ => true) (fun s => s) (fun _ => "AbC12xyz") []
            "https://example.com" none none none 0).2
          "https://example.com" none none none 1).1
        = .success code false "https://example.com" :=
  ⟨by decide,
   idempotent_create_returns_existing (fun _ => true) (fun s => s)
     (fun _ => "AbC12xyz") none "https://example.com" 0 1 (by decide)⟩

/-- Claim C7: resolving a short code whose stored `expiresAt` is a (positive)
timestamp in the past yields the expired outcome — distinct from not-found,
never carrying the destination URL — and records an `EXPIRED` event, not
`SUCCESS`.  (Positivity holds for every expiry the system writes:
`expiresAt = now + expiresIn·1000` with `expiresIn ≥ 3600`; the JavaScript
truthiness guard only special-cases `0`.) -/
theorem expired_resolution_outcome (item : LinkItem) (now e : Nat)
    (he : item.expiresAt = some e) (hpos : 0 < e) (hpast : e < now) :
    resolve (.ok (some item)) now = (.expired, some .EXPIRED) ∧
    (resolve (.ok (some item)) now).1 ≠ .notFound ∧
    (∀ url, (resolve (.ok (some item)) now).1 ≠ .redirect url) ∧
    (resolve (.ok (some item)) now).2 ≠ some .SUCCESS := by
  have htr : expiresTruthy item.expiresAt = true := by
    simp [expiresTruthy, he]; omega
  have hgt : now > item.expiresAt.getD 0 := by simp [he]; omega
  simp [resolve, htr, hgt]

/-- An already-expired stored link, used to instantiate the expiry theorem. -/
def expiredItem : LinkItem :=
  { shortCode := "AbC12xyz", originalUrl := "https://example.com",
    originalUrlHash := "h", createdAt := 0, expiresAt := some 1 }

theorem expired_resolution_outcome_witness :
    expiredItem.expiresAt = some 1 ∧ 0 < 1 ∧ 1 < 2 ∧
    (resolve (.ok (some expiredItem)) 2 = (.expired, some .EXPIRED) ∧
      (resolve (.ok (some expiredItem)) 2).1 ≠ .notFound ∧
      (∀ url, (resolve (.ok (some expiredItem)) 2).1 ≠ .redirect url) ∧
      (resolve (.ok (some expiredItem)) 2).2 ≠ some .SUCCESS) :=
  ⟨rfl, by decide, by decide,
   expired_resolution_outcome expiredItem 2 1 rfl (by decide) (by decide)⟩

/-- The full alphanumeric repertoire, digits then uppercase then lowercase. -/
def ALPHANUMERIC : String :=
  "0123456789ABCDEFGHIJKLMNOPQRSTUVWXYZabcdefghijklmnopqrstuvwxyz"

/-- Claim C9, counterexample: the alphabet hard-coded in
`lambda/create/index.ts` line 19 has 56 symbols, not 57 — besides the
advertised `0`, `1`, `I`, `O`, `l` it also omits lowercase `o`, so it is not
"the digits and letters minus `0,1,I,O,l`". -/
theorem alphabet_has_56_symbols_not_57 :
    SHORT_CODE_ALPHABET.toList.length = 56 ∧
    SHORT_CODE_ALPHABET.toList ≠
      (ALPHANUMERIC.toList.filter
        (fun ch => !(['0', '1', 'I', 'O', 'l'].contains ch))) ∧
    'o' ∉ SHORT_CODE_ALPHABET.toList := by
  decide

/-- Claim C9 as amended: every character of every generated short code is
drawn from the fixed 56-symbol alphabet, which is exactly the 62 alphanumeric
characters minus the visually ambiguous `0`, `1`, `I`, `O`, `l` and `o`. -/
theorem generated_code_chars_in_alphabet (rand : Nat → Nat) (c : Char)
    (hc : c ∈ generateShortCode rand) :
    c ∈ SHORT_CODE_ALPHABET.toList ∧
    SHORT_CODE_ALPHABET.toList.length = 56 ∧
    SHORT_CODE_ALPHABET.toList =
      (ALPHANUMERIC.toList.filter
        (fun ch => !(['0', '1', 'I', 'O', 'l', 'o'].contains ch))) := by
  refine ⟨?_, by decide, by decide⟩
  simp only [generateShortCode, List.mem_map, List.mem_range] at hc
  obtain ⟨i, _, rfl⟩ := hc
  have hlt : rand i % SHORT_CODE_ALPHABET.toList.length
      < SHORT_CODE_ALPHABET.toList.length :=
    Nat.mod_lt _ (by decide)
  rw [List.getD_eq_getElem _ _ hlt]
  exact List.getElem_mem hlt

theorem generated_code_chars_in_alphabet_witness :
    '2' ∈ generateShortCode (fun _ => 0) ∧
    ('2' ∈ SHORT_CODE_ALPHABET.toList ∧
     SHORT_CODE_ALPHABET.toList.length = 56 ∧
     SHORT_CODE_ALPHABET.toList =
       (ALPHANUMERIC.toList.filter
         (fun ch => !(['0', '1', 'I', 'O', 'l', 'o'].contains ch)))) :=
  ⟨by decide, generated_code_chars_in_alphabet (fun _ => 0) '2' (by decide)⟩

/-- If the existence probe reports a collision for every attempt index in the
remaining fuel, the generation loop exhausts its attempts. -/
theorem generateUniqueShortCodeGo_exhausts (gen : Nat → String) (ops : StoreOps)
    (fuel : Nat) :
    ∀ attempt,
      (∀ i, attempt ≤ i → i < attempt + fuel →
        checkShortCodeExists (ops.getCodeExists (gen i)) = true) →
      generateUniqueShortCodeGo gen ops attempt fuel = .error .exhausted := by
  induction fuel with
  | zero => intro attempt _; rfl
  | succ n ih =>
    intro attempt h
    have hx : checkShortCodeExists (ops.getCodeExists (gen attempt)) = true :=
      h attempt (Nat.le_refl _) (by omega)
    simp only [generateUniqueShortCodeGo, hx, if_true]
    exact ih (attempt + 1) (fun i h1 h2 => h i (by omega) (by omega))

/-- If the existence probe reports the attempt's code free, the loop returns
that code at once. -/
theorem generateUniqueShortCodeGo_free (gen : Nat → String) (ops : StoreOps)
    (fuel attempt : Nat)
    (h : checkShortCodeExists (ops.getCodeExists (gen attempt)) = false) :
    generateUniqueShortCodeGo gen ops attempt (fuel + 1) = .ok (gen attempt) := by
  simp [generateUniqueShortCodeGo, h]

/-- A store on which every conditional write fails its condition
(`ConditionalCheckFailedException`), while existence reads report codes free. -/
def condFailOps : StoreOps :=
  { queryByHash := fun _ => .ok []
    getCodeExists := fun _ => .ok false
    putIfAbsent := fun _ => .error .condFailed }

/-- Claim C4, counterexample: conditional-write failures are not the retry
signal.  On a store where every conditional write fails (in the claim's
reading, "all attempts collide"), a create call without a custom code returns
the 409 conflict produced by the single `PutItem` — not the exhausted-attempts
error the claim prescribes; no second generation attempt happens. -/
theorem conditional_write_failure_not_retried :
    (createHandler (fun _ => true) (fun s => s) (fun _ => "AbC12xyz") condFailOps
        "https://example.com" none none none 0).1
      = .conflict "Short code already exists" ∧
    (createHandler (fun _ => true) (fun s => s) (fun _ => "AbC12xyz") condFailOps
        "https://example.com" none none none 0).1 ≠ .serverError := by
  decide

/-- Claim C4 as amended: the create path retries code generation up to the
fixed bound of 5 attempts, treating each collision reported by the
existence read (`checkShortCodeExists`; read errors count as collisions) as
the retry signal, and throws the exhausted-attempts error — surfaced as a 500
— when all 5 attempts collide.  A conditional-write failure is surfaced as a
409 conflict, not retried. -/
theorem generation_retry_exhausts_after_five (zodUrlOk : String → Bool)
    (hash : String → String) (gen : Nat → String) (ops : StoreOps)
    (url : String) (userId : Option String) (now : Nat)
    (hurl : urlSchemaOk zodUrlOk url = true)
    (hfind : ops.queryByHash (hash url) = .ok [])
    (hcollide : ∀ i, i < 5 →
      checkShortCodeExists (ops.getCodeExists (gen i)) = true) :
    generateUniqueShortCode gen ops 5 = .error .exhausted ∧
    (createHandler zodUrlOk hash gen ops url none none userId now).1
      = .serverError := by
  have hgen : generateUniqueShortCode gen ops 5 = .error .exhausted :=
    generateUniqueShortCodeGo_exhausts gen ops 5 0
      (fun i _ h2 => hcollide i (by omega))
  refine ⟨hgen, ?_⟩
  simp [createHandler, findExistingLink, hfind, hurl, customCodeFieldOk,
    expiresInOk, expiresTruthy, hgen]

/-- A store that always collides: existence reads report every code taken. -/
def allTakenOps : StoreOps :=
  { queryByHash := fun _ => .ok []
    getCodeExists := fun _ => .ok true
    putIfAbsent := fun _ => .ok () }

theorem generation_retry_exhausts_after_five_witness :
    urlSchemaOk (fun _ => true) "https://example.com" = true ∧
    allTakenOps.queryByHash ((fun s => s) "https://example.com") = .ok [] ∧
    (∀ i, i < 5 →
      checkShortCodeExists (allTakenOps.getCodeExists ((fun _ => "AbC12xyz") i))
        = true) ∧
    (generateUniqueShortCode (fun _ => "AbC12xyz") allTakenOps 5
        = .error .exhausted ∧
      (createHandler (fun _ => true) (fun s => s) (fun _ => "AbC12xyz")
          allTakenOps "https://example.com" none none none 0).1
        = .serverError) :=
  ⟨by decide, rfl, fun i _ => rfl,
   generation_retry_exhausts_after_five (fun _ => true) (fun s => s)
     (fun _ => "AbC12xyz") allTakenOps "https://example.com" none 0
     (by decide) rfl (fun i _ => rfl)⟩

/-- A store whose secondary-index query errors while everything else works. -/
def lookupErrOps : StoreOps :=
  { queryByHash := fun _ => .error .internal
    getCodeExists := fun _ => .ok false
    putIfAbsent := fun _ => .ok () }

/-- Claim C8, counterexample: a store error in the create path's duplicate-URL
lookup does not propagate.  With the `OriginalUrlIndex` query failing, the
create call succeeds (`created = true`, an item is written) instead of
returning a server error: `findExistingLink` catches the error and returns
`null`. -/
theorem duplicate_lookup_error_swallowed :
    (createHandler (fun _ => true) (fun s => s) (fun _ => "AbC12xyz") lookupErrOps
        "https://example.com" none none none 0).1
      = .success "AbC12xyz" true "https://example.com" ∧
    (createHandler (fun _ => true) (fun s => s) (fun _ => "AbC12xyz") lookupErrOps
        "https://example.com" none none none 0).1 ≠ .serverError ∧
    (createHandler (fun _ => true) (fun s => s) (fun _ => "AbC12xyz") lookupErrOps
        "https://example.com" none none none 0).2 ≠ none := by
  decide

/-- Claim C8 as amended: store errors during the redirect resolver's link
lookup and during the link-creation conditional write propagate to the caller
as server errors; the create path's duplicate-URL index lookup, by contrast,
swallows store errors and proceeds as if no duplicate existed. -/
theorem critical_path_store_errors_propagate (err : StoreErr) (now : Nat)
    (zodUrlOk : String → Bool) (hash : String → String) (gen : Nat → String)
    (ops : StoreOps) (url : String) (userId : Option String) (laterNow : Nat)
    (hurl : urlSchemaOk zodUrlOk url = true)
    (hfind : ops.queryByHash (hash url) = .ok [])
    (hfree : ops.getCodeExists (gen 0) = .ok false)
    (hput : ∀ it, ops.putIfAbsent it = .error .store) :
    resolve (.error err) now = (.serverError, none) ∧
    (createHandler zodUrlOk hash gen ops url none none userId laterNow).1
      = .serverError := by
  have hok : generateUniqueShortCode gen ops 5 = .ok (gen 0) :=
    generateUniqueShortCodeGo_free gen ops 4 0 (by simp [checkShortCodeExists, hfree])
  refine ⟨rfl, ?_⟩
  simp [createHandler, findExistingLink, hfind, hurl, customCodeFieldOk,
    expiresInOk, hok, hput]

/-- A store whose writes all fail with a non-conditional error. -/
def putErrOps : StoreOps :=
  { queryByHash := fun _ => .ok []
    getCodeExists := fun _ => .ok false
    putIfAbsent := fun _ => .error .store }

theorem critical_path_store_errors_propagate_witness :
    urlSchemaOk (fun _ => true) "https://example.com" = true ∧
    putErrOps.queryByHash ((fun s => s) "https://example.com") = .ok [] ∧
    putErrOps.getCodeExists ((fun _ => "AbC12xyz") 0) = .ok false ∧
    (∀ it, putErrOps.putIfAbsent it = .error .store) ∧
    (resolve (.error .internal) 0 = (.serverError, none) ∧
      (createHandler (fun _ => true) (fun s => s) (fun _ => "AbC12xyz")
          putErrOps "https://example.com" none none none 0).1 = .serverError) :=
  ⟨by decide, rfl, rfl, fun _ => rfl,
   critical_path_store_errors_propagate .internal 0 (fun _ => true) (fun s => s)
     (fun _ => "AbC12xyz") putErrOps "https://example.com" none 0
     (by decide) rfl rfl (fun _ => rfl)⟩

/-! ## Analytics aggregator (`lambda/analytics/index.ts`) -/

/-- A stored click event, with the fields the aggregation reads.  Optional
string fields model absent (or otherwise falsy) JavaScript values. -/
structure ClickEvent where
  eventType : EventType
  timestamp : Nat := 0
  ipHash : String := ""
  referer : Option String := none
  country : Option String := none
  device : Option String := none
  browser : Option String := none
  browserVersion : Option String := none
deriving DecidableEq, Repr

/-- Loop of `fetchClickEvents` (lines 188–248): `pages` is the sequence of
query results the store's continuation tokens produce (each `Limit: 1000`);
every iteration pushes the whole page and only then breaks if the accumulated
count exceeds 10,000.  The do-while also ends when the continuation token is
exhausted, i.e. when `pages` runs out. -/
def fetchLoop {α : Type} : List (List α) → List α → List α
  | [], events => events
  | page :: rest, events =>
    let grown := events ++ page
    if grown.length > 10000 then grown else fetchLoop rest grown

/-- `fetchClickEvents`, starting from the empty accumulator. -/
def fetchClickEvents {α : Type} (pages : List (List α)) : List α :=
  fetchLoop pages []

/-- `events.filter(e => e.eventType === 'SUCCESS')` in `processAnalyticsData`
(line 283). -/
def successEvents (events : List ClickEvent) : List ClickEvent :=
  events.filter (fun ev => ev.eventType == .SUCCESS)

/-- `totalClicks` of the analytics report: `successEvents.length` (line 308). -/
def totalClicks (events : List ClickEvent) : Nat := (successEvents events).length

structure DeviceStats where
  desktop : Nat := 0
  mobile : Nat := 0
  tablet : Nat := 0
  unknown : Nat := 0
deriving DecidableEq, Repr

/-- `event.device || 'unknown'` (JavaScript truthiness: absent or empty
string falls back). -/
def deviceOf (ev : ClickEvent) : String :=
  match ev.device with
  | none => "unknown"
  | some s => if s == "" then "unknown" else s

/-- One iteration of the `calculateDeviceStats` switch on the lowercased
device type: `mobile`, `tablet`, `desktop`/`pc`, and the default bucket. -/
def deviceStep (stats : DeviceStats) (ev : ClickEvent) : DeviceStats :=
  let t := jsToLower (deviceOf ev)
  if t == "mobile" then { stats with mobile := stats.mobile + 1 }
  else if t == "tablet" then { stats with tablet := stats.tablet + 1 }
  else if t == "desktop" || t == "pc" then { stats with desktop := stats.desktop + 1 }
  else { stats with unknown := stats.unknown + 1 }

/-- `calculateDeviceStats` (lines 389–416). -/
def calculateDeviceStats (events : List ClickEvent) : DeviceStats :=
  events.foldl deviceStep ⟨0, 0, 0, 0⟩

/-- `counts[key] = (counts[key] || 0) + 1` on a JavaScript object: bump the
entry, preserving first-seen insertion order (`Object.entries` order for
string keys). -/
def bump : List (String × Nat) → String → List (String × Nat)
  | [], k => [(k, 1)]
  | (k', v) :: rest, k =>
    if k' == k then (k', v + 1) :: rest else (k', v) :: bump rest k

/-- Grouping fold shared by the three breakdowns. -/
def countsBy (key : ClickEvent → String) (events : List ClickEvent) :
    List (String × Nat) :=
  events.foldl (fun m ev => bump m (key ev)) []

/-- `event.referer === 'direct' ? 'Direct' : event.referer ?
new URL(event.referer).hostname : 'Unknown'` (lines 352–353); `hostnameOf`
abstracts the external `new URL(…).hostname`. -/
def referrerKey (hostnameOf : String → String) (ev : ClickEvent) : String :=
  match ev.referer with
  | none => "Unknown"
  | some r =>
    if r == "direct" then "Direct"
    else if r == "" then "Unknown" else hostnameOf r

/-- `event.country || 'Unknown'` (line 373). -/
def countryKey (ev : ClickEvent) : String :=
  match ev.country with
  | none => "Unknown"
  | some c => if c == "" then "Unknown" else c

/-- `const browser = event.browser || 'Unknown'; const version =
event.browserVersion || ''; const key = version ? `${browser} ${version}` :
browser` (lines 422–424). -/
def browserKey (ev : ClickEvent) : String :=
  let browser :=
    match ev.browser with
    | none => "Unknown"
    | some b => if b == "" then "Unknown" else b
  let version :=
    match ev.browserVersion with
    | none => ""
    | some v => v
  if version == "" then browser else browser ++ " " ++ version

/-- `Math.round((clicks / total) * 100)` for `total > 0`: exact rounding of
the rational `100·clicks/total`, half away from zero (the double-precision
computation agrees on the inputs at issue — no representable tie is hit). -/
def roundPct (clicks total : Nat) : Nat := (200 * clicks + total) / (2 * total)

/-- `total > 0 ? Math.round((clicks / total) * 100) : 0`. -/
def pctOf (clicks total : Nat) : Nat :=
  if 0 < total then roundPct clicks total else 0

/-- Stable insertion keyed by descending click count: the new element goes
before the first element whose count does not exceed its own, which keeps
earlier elements ahead on ties. -/
def insertByClicksDesc {α : Type} (clicks : α → Nat) (a : α) : List α → List α
  | [] => [a]
  | b :: bs =>
    if clicks b ≤ clicks a then a :: b :: bs
    else b :: insertByClicksDesc clicks a bs

/-- JavaScript's stable `sort((a, b) => b.clicks - a.clicks)`. -/
def sortByClicksDesc {α : Type} (clicks : α → Nat) : List α → List α
  | [] => []
  | a :: rest => insertByClicksDesc clicks a (sortByClicksDesc clicks rest)

structure ReferrerStats where
  referrer : String
  clicks : Nat
  percentage : Nat
deriving DecidableEq, Repr

structure CountryStats where
  country : String
  clicks : Nat
  percentage : Nat
deriving DecidableEq, Repr

structure BrowserStats where
  browser : String
  version : String
  clicks : Nat
  percentage : Nat
deriving DecidableEq, Repr

/-- `calculateReferrerStats` (lines 348–367): group by referrer key in
insertion order, attach the rounded percentage of the input total, sort by
clicks descending (stable), keep the top 10. -/
def calculateReferrerStats (hostnameOf : String → String)
    (events : List ClickEvent) : List ReferrerStats :=
  let total := events.length
  (sortByClicksDesc ReferrerStats.clicks
    ((countsBy (referrerKey hostnameOf) events).map
      (fun kv => ⟨kv.1, kv.2, pctOf kv.2 total⟩))).take 10

/-- `calculateCountryStats` (lines 369–387). -/
def calculateCountryStats (events : List ClickEvent) : List CountryStats :=
  let total := events.length
  (sortByClicksDesc CountryStats.clicks
    ((countsBy countryKey events).map
      (fun kv => ⟨kv.1, kv.2, pctOf kv.2 total⟩))).take 10

/-- `browserVersion.split(' ')` on the character sequence (the keys here are
ASCII). -/
def splitChars : List Char → List (List Char)
  | [] => [[]]
  | c :: rest =>
    match splitChars rest with
    | [] => if c == ' ' then [[], [c]] else [[c]]
    | h :: t => if c == ' ' then [] :: h :: t else (c :: h) :: t

/-- `parts.slice(1).join(' ')`. -/
def joinSpace : List String → String
  | [] => ""
  | [s] => s
  | s :: rest => s ++ " " ++ joinSpace rest

/-- `calculateBrowserStats` (lines 418–442): the grouped key is split back at
spaces into `browser` (`parts[0]`) and `version`
(`parts.slice(1).join(' ') || 'Unknown'`). -/
def calculateBrowserStats (events : List ClickEvent) : List BrowserStats :=
  let total := events.length
  (sortByClicksDesc BrowserStats.clicks
    ((countsBy browserKey events).map
      (fun kv =>
        let parts := (splitChars kv.1.toList).map String.mk
        let version := joinSpace parts.tail
        ⟨parts.headD "", if version == "" then "Unknown" else version,
         kv.2, pctOf kv.2 total⟩))).take 10

/-! ## Claims about the aggregation -/

/-- A full query page (the query's `Limit: 1000` page size). -/
def fullPage : List Nat := List.replicate 1000 0

/-- Eleven consecutive full pages returned by the paginated query. -/
def elevenPages : List (List Nat) :=
  [fullPage, fullPage, fullPage, fullPage, fullPage, fullPage,
   fullPage, fullPage, fullPage, fullPage, fullPage]

/-- Claim C5, counterexample: the cap is checked only after a whole page is
pushed, so the event list can exceed 10,000.  Eleven full pages of 1,000
events produce a list of 11,000 events — more than the claimed 10,000
maximum. -/
theorem fetch_events_exceeds_cap :
    (fetchClickEvents elevenPages).length = 11000 ∧
    ¬ (fetchClickEvents elevenPages).length ≤ 10000 := by
  have h : (fetchClickEvents elevenPages).length = 11000 := by
    norm_num [fetchClickEvents, fetchLoop, elevenPages, fullPage]
  exact ⟨h, by omega⟩

/-- Claim C5 as amended: the paginated scan stops as soon as the accumulated
event count exceeds 10,000, so with the query's `Limit: 1000` page size the
produced list never holds more than 11,000 events (10,000 plus one final
page); it is not capped at 10,000 exactly. -/
theorem fetch_events_bounded_by_cap_plus_page (pages : List (List ClickEvent))
    (h : ∀ p ∈ pages, p.length ≤ 1000) :
    (fetchClickEvents pages).length ≤ 11000 := by
  have aux : ∀ (ps : List (List ClickEvent)) (acc : List ClickEvent),
      (∀ p ∈ ps, p.length ≤ 1000) → acc.length ≤ 10000 →
      (fetchLoop ps acc).length ≤ 11000 := by
    intro ps
    induction ps with
    | nil =>
      intro acc _ hacc
      simpa [fetchLoop] using le_trans hacc (by omega)
    | cons page rest ih =>
      intro acc hp hacc
      have hpage : page.length ≤ 1000 := hp page (by simp)
      simp only [fetchLoop]
      split
      · simp only [List.length_append]
        omega
      · exact ih (acc ++ page) (fun p hm => hp p (by simp [hm]))
          (by simp only [List.length_append] at *; omega)
  exact aux pages [] h (by simp)

theorem fetch_events_bounded_by_cap_plus_page_witness :
    (∀ p ∈ [[({ eventType := .SUCCESS } : ClickEvent)]], p.length ≤ 1000) ∧
    (fetchClickEvents [[({ eventType := .SUCCESS } : ClickEvent)]]).length
      ≤ 11000 :=
  ⟨by decide, fetch_events_bounded_by_cap_plus_page _ (by decide)⟩

/-- Each `deviceStep` increments exactly one of the four buckets. -/
theorem deviceStep_sum (s : DeviceStats) (ev : ClickEvent) :
    (deviceStep s ev).desktop + (deviceStep s ev).mobile +
      (deviceStep s ev).tablet + (deviceStep s ev).unknown
      = s.desktop + s.mobile + s.tablet + s.unknown + 1 := by
  simp only [deviceStep]
  split_ifs <;> (try simp) <;> omega

/-- Folding `deviceStep` adds the list length to the bucket total. -/
theorem foldl_deviceStep_sum (events : List ClickEvent) :
    ∀ s : DeviceStats,
      (events.foldl deviceStep s).desktop + (events.foldl deviceStep s).mobile +
        (events.foldl deviceStep s).tablet + (events.foldl deviceStep s).unknown
        = s.desktop + s.mobile + s.tablet + s.unknown + events.length := by
  induction events with
  | nil => intro s; simp
  | cons ev rest ih =>
    intro s
    simp only [List.foldl_cons, List.length_cons]
    rw [ih (deviceStep s ev), deviceStep_sum]
    omega

/-- Claim C10: the four device-mix buckets partition the aggregated events —
`desktop + mobile + tablet + unknown` equals `totalClicks`, the number of
`SUCCESS` events fed to the aggregation, since the switch statement routes
every event into exactly one bucket. -/
theorem device_buckets_partition_total (events : List ClickEvent) :
    (calculateDeviceStats (successEvents events)).desktop +
      (calculateDeviceStats (successEvents events)).mobile +
      (calculateDeviceStats (successEvents events)).tablet +
      (calculateDeviceStats (successEvents events)).unknown
      = totalClicks events := by
  unfold calculateDeviceStats totalClicks
  rw [foldl_deviceStep_sum]
  simp

/-- Bumping a key adds one to the total of all counts. -/
theorem bump_snd_sum (m : List (String × Nat)) (k : String) :
    ((bump m k).map Prod.snd).sum = ((m.map Prod.snd).sum) + 1 := by
  induction m with
  | nil => simp [bump]
  | cons kv rest ih =>
    obtain ⟨k', v⟩ := kv
    simp only [bump]
    split
    · simp only [List.map_cons, List.sum_cons]
      omega
    · simp only [List.map_cons, List.sum_cons, ih]
      omega

/-- The grouped counts of `countsBy` total the number of events. -/
theorem countsBy_snd_sum (key : ClickEvent → String) (events : List ClickEvent) :
    ((countsBy key events).map Prod.snd).sum = events.length := by
  suffices h : ∀ m, (((events.foldl (fun m ev => bump m (key ev)) m).map Prod.snd).sum)
      = ((m.map Prod.snd).sum) + events.length by
    simpa [countsBy] using h []
  induction events with
  | nil => intro m; simp
  | cons ev rest ih =>
    intro m
    simp only [List.foldl_cons, List.length_cons]
    rw [ih (bump m (key ev)), bump_snd_sum]
    omega

theorem insertByClicksDesc_perm {α : Type} (clicks : α → Nat) (a : α)
    (l : List α) : (insertByClicksDesc clicks a l).Perm (a :: l) := by
  induction l with
  | nil => exact List.Perm.refl _
  | cons b bs ih =>
    simp only [insertByClicksDesc]
    split
    · exact List.Perm.refl _
    · exact (List.Perm.cons b ih).trans (List.Perm.swap a b bs)

theorem sortByClicksDesc_perm {α : Type} (clicks : α → Nat) (l : List α) :
    (sortByClicksDesc clicks l).Perm l := by
  induction l with
  | nil => exact List.Perm.refl _
  | cons a rest ih =>
    exact (insertByClicksDesc_perm clicks a _).trans (List.Perm.cons a ih)

/-- Sorting (a permutation) and then taking the top 10 of a list of at most
10 entries leaves the multiset of percentages unchanged. -/
theorem sortTake_map_sum {α : Type} (clicks pctg : α → Nat) (l : List α)
    (hlen : l.length ≤ 10) :
    (((sortByClicksDesc clicks l).take 10).map pctg).sum = (l.map pctg).sum := by
  have hperm := sortByClicksDesc_perm clicks l
  have hl : (sortByClicksDesc clicks l).length ≤ 10 := by
    rw [hperm.length_eq]; exact hlen
  rw [List.take_of_length_le hl]
  exact (hperm.map pctg).sum_eq

/-- Lower bound for natural division: `a + 1 ≤ (a / b) * b + b` when `0 < b`. -/
theorem div_mul_lower (a b : Nat) (hb : 0 < b) : a + 1 ≤ a / b * b + b := by
  have hdm := Nat.div_add_mod a b
  have hm : a % b < b := Nat.mod_lt a hb
  calc a + 1 = b * (a / b) + a % b + 1 := by rw [hdm]
    _ ≤ b * (a / b) + b := by omega
    _ = a / b * b + b := by rw [Nat.mul_comm]

theorem sum_roundPct_mul_le (cs : List Nat) (T : Nat) :
    ((cs.map (fun c => roundPct c T)).sum) * (2 * T)
      ≤ 200 * cs.sum + cs.length * T := by
  induction cs with
  | nil => simp
  | cons c rest ih =>
    simp only [List.map_cons, List.sum_cons, List.length_cons]
    have h1 : roundPct c T * (2 * T) ≤ 200 * c + T := Nat.div_mul_le_self _ _
    calc (roundPct c T + (rest.map (fun c => roundPct c T)).sum) * (2 * T)
        = roundPct c T * (2 * T)
            + ((rest.map (fun c => roundPct c T)).sum) * (2 * T) := by ring
      _ ≤ (200 * c + T) + (200 * rest.sum + rest.length * T) :=
          Nat.add_le_add h1 ih
      _ = 200 * (c + rest.sum) + (rest.length + 1) * T := by ring

theorem sum_roundPct_mul_ge (cs : List Nat) (T : Nat) (hT : 0 < T) :
    200 * cs.sum + cs.length * T + cs.length
      ≤ ((cs.map (fun c => roundPct c T)).sum) * (2 * T)
          + cs.length * (2 * T) := by
  induction cs with
  | nil => simp
  | cons c rest ih =>
    simp only [List.map_cons, List.sum_cons, List.length_cons]
    have h2 : 200 * c + T + 1 ≤ roundPct c T * (2 * T) + 2 * T :=
      div_mul_lower (200 * c + T) (2 * T) (by omega)
    calc 200 * (c + rest.sum) + (rest.length + 1) * T + (rest.length + 1)
        = (200 * c + T + 1)
            + (200 * rest.sum + rest.length * T + rest.length) := by ring
      _ ≤ (roundPct c T * (2 * T) + 2 * T)
            + (((rest.map (fun c => roundPct c T)).sum) * (2 * T)
                + rest.length * (2 * T)) := Nat.add_le_add h2 ih
      _ = (roundPct c T + (rest.map (fun c => roundPct c T)).sum) * (2 * T)
            + (rest.length + 1) * (2 * T) := by ring

/-- Rounding each group's percentage to the nearest integer keeps the sum of
percentages within `[96, 105]` whenever the group counts partition a positive
total and there are at most 10 groups. -/
theorem pctSum_bounds (cs : List Nat) (T : Nat) (hT : 0 < T)
    (hsum : cs.sum = T) (hlen : cs.length ≤ 10) :
    96 ≤ (cs.map (fun c => roundPct c T)).sum ∧
      (cs.map (fun c => roundPct c T)).sum ≤ 105 := by
  have hk1 : 1 ≤ cs.length := by
    cases cs with
    | nil => simp at hsum; omega
    | cons a l => simp
  have up := sum_roundPct_mul_le cs T
  have lo := sum_roundPct_mul_ge cs T hT
  rw [hsum] at up lo
  have hkT : cs.length * T ≤ 10 * T := Nat.mul_le_mul_right T hlen
  constructor
  · have h2T : cs.length * (2 * T) = cs.length * T + cs.length * T := by ring
    have hstrict : 95 * (2 * T)
        < ((cs.map (fun c => roundPct c T)).sum) * (2 * T) := by
      have hexp : 95 * (2 * T) = 190 * T := by ring
      rw [hexp]
      omega
    have h95 := lt_of_mul_lt_mul_right hstrict (Nat.zero_le (2 * T))
    omega
  · have h105 : ((cs.map (fun c => roundPct c T)).sum) * (2 * T)
        ≤ 105 * (2 * T) := by
      have hexp : 105 * (2 * T) = 200 * T + 10 * T := by ring
      omega
    exact Nat.le_of_mul_le_mul_right h105 (by omega)

/-- The `[96, 105]` window for one breakdown's percentage list, stated on the
grouped counts. -/
theorem breakdown_bound_core (key : ClickEvent → String)
    (events : List ClickEvent) (hT : 0 < events.length)
    (hlen : (countsBy key events).length ≤ 10) :
    96 ≤ (((countsBy key events).map Prod.snd).map
            (fun c => pctOf c events.length)).sum ∧
      (((countsBy key events).map Prod.snd).map
            (fun c => pctOf c events.length)).sum ≤ 105 := by
  have hp : (fun c => pctOf c events.length)
      = (fun c => roundPct c events.length) := funext fun c => if_pos hT
  rw [hp]
  exact pctSum_bounds _ _ hT (countsBy_snd_sum key events)
    (by simpa using hlen)

/-- Six aggregated events with six distinct referrers. -/
def sixReferrerEvents : List ClickEvent :=
  [{ eventType := .SUCCESS, referer := some "r1.example" },
   { eventType := .SUCCESS, referer := some "r2.example" },
   { eventType := .SUCCESS, referer := some "r3.example" },
   { eventType := .SUCCESS, referer := some "r4.example" },
   { eventType := .SUCCESS, referer := some "r5.example" },
   { eventType := .SUCCESS, referer := some "r6.example" }]

/-- Claim C2, counterexample: each group's percentage is rounded on its own
(`Math.round(clicks / total * 100)`), so the percentages of six equally
frequent referrers are 17 each and sum to 102 — more than 100 — although
only 6 distinct values exist and truncation discards nothing. -/
theorem referrer_percentage_sum_exceeds_100 :
    (countsBy (referrerKey (fun s => s)) sixReferrerEvents).length ≤ 10 ∧
    ((calculateReferrerStats (fun s => s) sixReferrerEvents).map
        ReferrerStats.percentage).sum = 102 ∧
    ¬ ((calculateReferrerStats (fun s => s) sixReferrerEvents).map
        ReferrerStats.percentage).sum ≤ 100 := by
  decide

/-- Claim C2 as amended: with at least one aggregated event and at most 10
distinct values per breakdown (so truncation discards nothing), the
percentages across the returned groups of each breakdown — referrer, country
and browser — sum to a value in `[96, 105]`: each group is rounded
independently, so the sum may fall below or rise above 100, but only within
half a percentage point per group. -/
theorem breakdown_percentage_sum_bounds (hostnameOf : String → String)
    (events : List ClickEvent) (hT : 0 < events.length)
    (hr : (countsBy (referrerKey hostnameOf) events).length ≤ 10)
    (hc : (countsBy countryKey events).length ≤ 10)
    (hb : (countsBy browserKey events).length ≤ 10) :
    (96 ≤ ((calculateReferrerStats hostnameOf events).map
          ReferrerStats.percentage).sum ∧
        ((calculateReferrerStats hostnameOf events).map
          ReferrerStats.percentage).sum ≤ 105) ∧
    (96 ≤ ((calculateCountryStats events).map CountryStats.percentage).sum ∧
        ((calculateCountryStats events).map CountryStats.percentage).sum ≤ 105) ∧
    (96 ≤ ((calculateBrowserStats events).map BrowserStats.percentage).sum ∧
        ((calculateBrowserStats events).map BrowserStats.percentage).sum ≤ 105) := by
  refine ⟨?_, ?_, ?_⟩
  · have heq : ((calculateReferrerStats hostnameOf events).map
        ReferrerStats.percentage).sum
        = (((countsBy (referrerKey hostnameOf) events).map Prod.snd).map
            (fun c => pctOf c events.length)).sum := by
      simp only [calculateReferrerStats]
      rw [sortTake_map_sum _ _ _ (by simpa using hr)]
      simp only [List.map_map]
      rfl
    rw [heq]
    exact breakdown_bound_core (referrerKey hostnameOf) events hT hr
  · have heq : ((calculateCountryStats events).map CountryStats.percentage).sum
        = (((countsBy countryKey events).map Prod.snd).map
            (fun c => pctOf c events.length)).sum := by
      simp only [calculateCountryStats]
      rw [sortTake_map_sum _ _ _ (by simpa using hc)]
      simp only [List.map_map]
      rfl
    rw [heq]
    exact breakdown_bound_core countryKey events hT hc
  · have heq : ((calculateBrowserStats events).map BrowserStats.percentage).sum
        = (((countsBy browserKey events).map Prod.snd).map
            (fun c => pctOf c events.length)).sum := by
      simp only [calculateBrowserStats]
      rw [sortTake_map_sum _ _ _ (by simpa using hb)]
      simp only [List.map_map]
      rfl
    rw [heq]
    exact breakdown_bound_core browserKey events hT hb

/-- One aggregated event, giving a single 100% group in each breakdown. -/
def oneClickEvents : List ClickEvent := [{ eventType := .SUCCESS }]

theorem breakdown_percentage_sum_bounds_witness :
    0 < oneClickEvents.length ∧
    (countsBy (referrerKey (fun s => s)) oneClickEvents).length ≤ 10 ∧
    (countsBy countryKey oneClickEvents).length ≤ 10 ∧
    (countsBy browserKey oneClickEvents).length ≤ 10 ∧
    ((96 ≤ ((calculateReferrerStats (fun s => s) oneClickEvents).map
          ReferrerStats.percentage).sum ∧
        ((calculateReferrerStats (fun s => s) oneClickEvents).map
          ReferrerStats.percentage).sum ≤ 105) ∧
      (96 ≤ ((calculateCountryStats oneClickEvents).map
            CountryStats.percentage).sum ∧
        ((calculateCountryStats oneClickEvents).map
            CountryStats.percentage).sum ≤ 105) ∧
      (96 ≤ ((calculateBrowserStats oneClickEvents).map
            BrowserStats.percentage).sum ∧
        ((calculateBrowserStats oneClickEvents).map
            BrowserStats.percentage).sum ≤ 105)) :=
  ⟨by decide, by decide, by decide, by decide,
   breakdown_percentage_sum_bounds (fun s => s) oneClickEvents (by decide)
     (by decide) (by decide) (by decide)⟩

end LinkShortener
